import Mathlib

/-!
Shallow embedding of the session/profile synchronization engine of the
repository (the `AuthProvider` component): the reconciler that turns
identity-service session notifications plus a staged pending registration
into a locally held `User`, the bounded-retry profile fetcher, and the
facade operations `signIn`, `signUp`, `signOut`,
`setCurrentOnboardingData` (the spec's `updateProfileField`).

External collaborators (the identity client and the profile store) are
modelled by their observable outcomes: each remote call is a parameter
giving the result the collaborator returned, and the profile store's
point lookups during a retry loop are a function from the attempt index
to that attempt's outcome.  Waiting `delay(500)` is modelled by
accumulating the milliseconds waited.
-/

namespace AuthCore

/-- The UI-facing reconciled user, as built by `setUser` in the source:
`{id, name, email, clan, totalDaysCompleted}` (email is always set to the
empty string by the reconciler; the clan column is nullable). -/
structure User where
  id : String
  name : String
  email : String
  clan : Option String
  totalDaysCompleted : Nat
deriving Repr, DecidableEq

/-- A row of the `profiles` store as read or written by the reconciler:
`{id, name, clan, total_days_completed}`. -/
structure ProfileRow where
  id : String
  name : String
  clan : Option String
  total_days_completed : Nat
deriving Repr, DecidableEq

/-- The provider's mutable state: `user` (CurrentUser, absent = `none`),
`isLoading` (the spec's `isSettling`), and `pendingProfile` (the staged
registration, holding the display name). -/
structure AuthState where
  user : Option User
  isLoading : Bool
  pendingProfile : Option String
deriving Repr, DecidableEq

/-- State on first mount: no user, `isLoading = true`, nothing staged. -/
def initialState : AuthState :=
  { user := none, isLoading := true, pendingProfile := none }

/-- Outcome of one point lookup in the profile store: a row was returned,
no row was returned (`maybeSingle` gave null), or the call errored. -/
inductive LookupResult where
  | found : ProfileRow → LookupResult
  | notFound : LookupResult
  | err : LookupResult
deriving Repr, DecidableEq

/-- `true` when the lookup did not yield a row (either "no data" or an
error). -/
def noRecord : LookupResult → Bool
  | .found _ => false
  | .notFound => true
  | .err => true

/-- Collapse a lookup error into "no row": used to state that the retry
loop handles the two identically. -/
def scrub : LookupResult → LookupResult
  | .found row => .found row
  | .notFound => .notFound
  | .err => .notFound

/-- Outcome of a remote call that either succeeds or errors. -/
inductive RemoteResult where
  | ok : RemoteResult
  | err : RemoteResult
deriving Repr, DecidableEq

/-- Outcome of `supabase.auth.signUp`: a session with or without a user
object, the distinguished "User already registered" error, or another
error. -/
inductive SignUpOutcome where
  | okUser : SignUpOutcome
  | okNoUser : SignUpOutcome
  | alreadyRegistered : SignUpOutcome
  | otherError : SignUpOutcome
deriving Repr, DecidableEq

/-- The auth events delivered to the `onAuthStateChange` listener. -/
inductive AuthEvent where
  | signedIn : AuthEvent
  | signedOut : AuthEvent
  | tokenRefreshed : AuthEvent
deriving Repr, DecidableEq

/-- Projection of a store row to the in-memory user, exactly as the
`setUser({...})` call in the source builds it (email comes back empty). -/
def projectUser (row : ProfileRow) : User :=
  { id := row.id
    name := row.name
    email := ""
    clan := row.clan
    totalDaysCompleted := row.total_days_completed }

/-- Result of a run of the retry loop: the state it leaves behind, the
boolean it returns, how many lookups it issued, and how many
milliseconds it spent in `delay(500)` calls. -/
structure FetchResult where
  state : AuthState
  succeeded : Bool
  attempts : Nat
  waitedMs : Nat
deriving Repr, DecidableEq

/-- The body of `fetchUserProfileWithRetry`, recursing on the number of
remaining iterations with `i` the current attempt index.  Mirrors the
source loop: a lookup returning a row sets the user and returns `true`
at once; a lookup returning nothing waits 500ms and continues; a lookup
that errors is caught, logged, waits 500ms and continues; when the
iterations are exhausted it sets `isLoading := false` and returns
`false`. -/
def fetchRetryAux (lookup : Nat → LookupResult) : Nat → Nat → AuthState → FetchResult
  | 0, _, s => ⟨{ s with isLoading := false }, false, 0, 0⟩
  | n + 1, i, s =>
    match lookup i with
    | .found row =>
        ⟨{ s with user := some (projectUser row), isLoading := false }, true, 1, 0⟩
    | .notFound =>
        let r := fetchRetryAux lookup n (i + 1) s
        ⟨r.state, r.succeeded, r.attempts + 1, r.waitedMs + 500⟩
    | .err =>
        let r := fetchRetryAux lookup n (i + 1) s
        ⟨r.state, r.succeeded, r.attempts + 1, r.waitedMs + 500⟩

/-- `fetchUserProfileWithRetry(userId)` with its default of 5 retries,
starting at attempt index 0. -/
def fetchUserProfileWithRetry (lookup : Nat → LookupResult) (s : AuthState) : FetchResult :=
  fetchRetryAux lookup 5 0 s

/-- `fetchUserProfile(userId)`: a single point lookup; a row sets the
user, anything else (no row, or a caught error) changes nothing; either
way `isLoading := false` in the `finally`. -/
def fetchUserProfile (result : LookupResult) (s : AuthState) : AuthState :=
  match result with
  | .found row => { s with user := some (projectUser row), isLoading := false }
  | .notFound => { s with isLoading := false }
  | .err => { s with isLoading := false }

/-- The boot `useEffect`: `getSession` returned either no session or a
session for some user id.  No session: `setIsLoading(false)`.  A
session: `fetchUserProfile(session.user.id)` — a single lookup, whose
outcome is `lookup 0`. -/
def bootSession (session : Option String) (lookup : Nat → LookupResult) (s : AuthState) : AuthState :=
  match session with
  | none => { s with isLoading := false }
  | some _ => fetchUserProfile (lookup 0) s

/-- The row the listener inserts into `profiles` when consuming a staged
registration: `{id: session.user.id, name: pendingProfile.name,
clan: 'onotka', total_days_completed: 0}`. -/
def insertedProfileRow (uid nm : String) : ProfileRow :=
  { id := uid, name := nm, clan := some "onotka", total_days_completed := 0 }

/-- The `onAuthStateChange` listener.  `session` is the notified session
(user id when present), `ins` the outcome of the profile insert (used
only on the branch that performs one), `lookup` the store's answers to
the retry fetch.  Returns the resulting state together with the row
passed to `ProfileStore.insert`, when an insert was attempted.
With a session and a staged registration on a `SIGNED_IN` event: insert
the new row; on success clear the stage and run the retry fetch; on
failure log and `setIsLoading(false)`.  With a session otherwise: run
the retry fetch.  Without a session: `setUser(null)`,
`setIsLoading(false)`. -/
def handleAuthChange (event : AuthEvent) (session : Option String)
    (ins : RemoteResult) (lookup : Nat → LookupResult) (s : AuthState) :
    AuthState × Option ProfileRow :=
  match session with
  | some uid =>
    match s.pendingProfile, event with
    | some nm, .signedIn =>
      match ins with
      | .ok =>
          ((fetchRetryAux lookup 5 0 { s with pendingProfile := none }).state,
            some (insertedProfileRow uid nm))
      | .err => ({ s with isLoading := false }, some (insertedProfileRow uid nm))
    | _, _ => ((fetchRetryAux lookup 5 0 s).state, none)
  | none => ({ s with user := none, isLoading := false }, none)

/-- First half of `signIn`: `setIsLoading(true)` before delegating to
the identity client. -/
def signInBegin (s : AuthState) : AuthState :=
  { s with isLoading := true }

/-- Second half of `signIn`, applied to the state in which the identity
call resolves: on success, navigate (not modelled) and, in the
`finally`, `setIsLoading(false)`; on error, log, rethrow (the boolean
records that the call rejected) and `setIsLoading(false)` in the
`finally`.  Neither path touches the user. -/
def signInResolve (r : RemoteResult) (s : AuthState) : AuthState × Bool :=
  match r with
  | .ok => ({ s with isLoading := false }, false)
  | .err => ({ s with isLoading := false }, true)

/-- `signIn(email, password)` run to completion with the identity call
resolving immediately: begin, then resolve.  The boolean is `true` when
signIn rejected (threw). -/
def signIn (r : RemoteResult) (s : AuthState) : AuthState × Bool :=
  signInResolve r (signInBegin s)

/-- `signUp(name, email, password)`: `setIsLoading(true)`, stage
`{name}`, then call the identity client.  Every failure path (error —
"User already registered" or other — or a success with no user object)
rethrows; no path resets `isLoading`.  The boolean is `true` when
signUp rejected (threw). -/
def signUp (nm : String) (r : SignUpOutcome) (s : AuthState) : AuthState × Bool :=
  let s1 := { s with isLoading := true, pendingProfile := some nm }
  match r with
  | .okUser => (s1, false)
  | .okNoUser => (s1, true)
  | .alreadyRegistered => (s1, true)
  | .otherError => (s1, true)

/-- `signOut()`: call the identity client's sign-out; on success
`setUser(null)` and navigate (not modelled); on error, the throw skips
the local clearing and the catch only logs. -/
def signOut : RemoteResult → AuthState → AuthState
  | .ok, s => { s with user := none }
  | .err, s => s

/-- The spec's `updateProfileField`, named `setCurrentOnboardingData` in
the source: guard (`return` unless a user is set and the patch carries a
clan), write the clan through to the store, and only if that update
succeeded merge the patch into the in-memory user; a failed update is
caught and logged, leaving the state untouched. -/
def setCurrentOnboardingData (clanValue : Option String) (upd : RemoteResult)
    (s : AuthState) : AuthState :=
  match s.user, clanValue with
  | some u, some c =>
    match upd with
    | .ok => { s with user := some { u with clan := some c } }
    | .err => s
  | _, _ => s

/-- The scenario of a retry loop still in flight when `signOut()`
completes: the sign-out resolves at one of the loop's suspension
points (`remaining` iterations and attempt index `i` still to go), and
the loop then resumes against the post-sign-out state. -/
def resumeRetryAfterSignOut (outcome : RemoteResult) (lookup : Nat → LookupResult)
    (remaining i : Nat) (s : AuthState) : AuthState :=
  (fetchRetryAux lookup remaining i (signOut outcome s)).state

/-- A concrete profile row used by witnesses and counterexamples. -/
def rowA : ProfileRow :=
  { id := "u1", name := "Ann", clan := some "onotka", total_days_completed := 3 }

/-- A store that answers every lookup with `rowA`. -/
def lookupRowA : Nat → LookupResult := fun _ => .found rowA

/-- A store that never yields a row. -/
def lookupNever : Nat → LookupResult := fun _ => .notFound

/-- A store that yields `rowA` from the second attempt on. -/
def lookupSecond : Nat → LookupResult := fun j => if j = 0 then .notFound else .found rowA

/-- A store that yields `rowA` only from the fifth attempt on. -/
def lookupFifth : Nat → LookupResult := fun j => if j < 4 then .notFound else .found rowA

/-- A store whose every lookup errors. -/
def lookupErrs : Nat → LookupResult := fun _ => .err

/-- A signed-in state: `rowA`'s projection is the current user. -/
def sSignedIn : AuthState :=
  { user := some (projectUser rowA), isLoading := false, pendingProfile := none }

/-- A state with a staged registration for "Alice". -/
def sPendingAlice : AuthState :=
  { user := none, isLoading := true, pendingProfile := some "Alice" }

/-- The retry loop never changes the staged registration: it only ever
touches `user` and `isLoading`. -/
theorem fetchRetryAux_pending (lookup : Nat → LookupResult) :
    ∀ n i s, (fetchRetryAux lookup n i s).state.pendingProfile = s.pendingProfile := by
  intro n
  induction n with
  | zero => intro i s; rfl
  | succ n ih =>
    intro i s
    cases h : lookup i <;> simp [fetchRetryAux, h, ih]

/-- The retry loop issues at most as many lookups as it has iterations
left. -/
theorem fetchRetryAux_attempts_le (lookup : Nat → LookupResult) :
    ∀ n i s, (fetchRetryAux lookup n i s).attempts ≤ n := by
  intro n
  induction n with
  | zero => intro i s; exact Nat.le_refl 0
  | succ n ih =>
    intro i s
    cases h : lookup i
    · simp [fetchRetryAux, h]
    · have := ih (i + 1) s
      simp only [fetchRetryAux, h]
      omega
    · have := ih (i + 1) s
      simp only [fetchRetryAux, h]
      omega

/-- A run in which no remaining lookup yields a row: the loop exhausts
all its iterations, returns `false`, leaves the state unchanged apart
from `isLoading := false`, and waits 500ms after every attempt. -/
theorem fetchRetryAux_none (lookup : Nat → LookupResult) :
    ∀ n i s, (∀ j, j < n → noRecord (lookup (i + j)) = true) →
    fetchRetryAux lookup n i s = ⟨{ s with isLoading := false }, false, n, 500 * n⟩ := by
  intro n
  induction n with
  | zero => intro i s _; rfl
  | succ n ih =>
    intro i s h
    have h0 : noRecord (lookup i) = true := by
      have := h 0 (Nat.succ_pos n)
      simpa using this
    have hrec : fetchRetryAux lookup n (i + 1) s =
        ⟨{ s with isLoading := false }, false, n, 500 * n⟩ := by
      apply ih
      intro j hj
      have e : i + 1 + j = i + (j + 1) := by omega
      rw [e]
      exact h (j + 1) (by omega)
    cases hc : lookup i
    · rw [hc] at h0; simp [noRecord] at h0
    · simp [fetchRetryAux, hc, hrec, Nat.mul_succ]
    · simp [fetchRetryAux, hc, hrec, Nat.mul_succ]

/-- A run whose first `k` lookups yield no row and whose lookup `i + k`
yields `row` (with `k` within the budget): the loop returns `true`
after exactly `k + 1` lookups and `500k` ms of waiting, with the user
set to `row`'s projection. -/
theorem fetchRetryAux_found (lookup : Nat → LookupResult) :
    ∀ n k i s row, k < n → (∀ j, j < k → noRecord (lookup (i + j)) = true) →
    lookup (i + k) = .found row →
    fetchRetryAux lookup n i s =
      ⟨{ s with user := some (projectUser row), isLoading := false }, true, k + 1, 500 * k⟩ := by
  intro n
  induction n with
  | zero => intro k i s row hk; exact absurd hk (Nat.not_lt_zero k)
  | succ n ih =>
    intro k i s row hk hbefore hfound
    cases k with
    | zero =>
      have hf : lookup i = .found row := by simpa using hfound
      simp [fetchRetryAux, hf]
    | succ k =>
      have h0 : noRecord (lookup i) = true := by
        have := hbefore 0 (Nat.succ_pos k)
        simpa using this
      have hrec := ih k (i + 1) s row (by omega)
        (fun j hj => by
          have e : i + 1 + j = i + (j + 1) := by omega
          rw [e]
          exact hbefore (j + 1) (by omega))
        (by
          have e : i + 1 + k = i + (k + 1) := by omega
          rw [e]
          exact hfound)
      cases hc : lookup i
      · rw [hc] at h0; simp [noRecord] at h0
      · simp [fetchRetryAux, hc, hrec, Nat.mul_succ]
      · simp [fetchRetryAux, hc, hrec, Nat.mul_succ]

/-- Collapsing lookup errors into "no row" does not change a run of the
retry loop at all: the two outcomes drive identical behaviour. -/
theorem fetchRetryAux_scrub (lookup : Nat → LookupResult) :
    ∀ n i s, fetchRetryAux (fun j => scrub (lookup j)) n i s = fetchRetryAux lookup n i s := by
  intro n
  induction n with
  | zero => intro i s; rfl
  | succ n ih =>
    intro i s
    have hrec := ih (i + 1) s
    cases h : lookup i with
    | found row =>
      have hs : scrub (LookupResult.found row) = LookupResult.found row := rfl
      simp only [fetchRetryAux, h, hs]
    | notFound =>
      have hs : scrub LookupResult.notFound = LookupResult.notFound := rfl
      simp only [fetchRetryAux, h, hs, hrec]
    | err =>
      have hs : scrub LookupResult.err = LookupResult.notFound := rfl
      simp only [fetchRetryAux, h, hs, hrec]

/-- A run of the retry loop only depends on the lookups inside its
iteration window. -/
theorem fetchRetryAux_ext (L1 L2 : Nat → LookupResult) :
    ∀ n i s, (∀ j, i ≤ j → j < i + n → L1 j = L2 j) →
    fetchRetryAux L1 n i s = fetchRetryAux L2 n i s := by
  intro n
  induction n with
  | zero => intro i s _; rfl
  | succ n ih =>
    intro i s h
    have hi : L1 i = L2 i := h i (Nat.le_refl i) (by omega)
    have hrec := ih (i + 1) s (fun j hj1 hj2 => h j (by omega) (by omega))
    cases hc : L2 i with
    | found row => simp only [fetchRetryAux, hi, hc]
    | notFound => simp only [fetchRetryAux, hi, hc, hrec]
    | err => simp only [fetchRetryAux, hi, hc, hrec]

/-- C1 counterexample: a retry loop for "u1" is one attempt from done
when signOut() completes and clears the user; the loop then resolves
and finds a row, and CurrentUser does not remain absent — the loop
commits the stale record over the sign-out, since the source has no
still-the-latest-identity check before its setUser call. -/
theorem signOut_stale_commit_cex :
    (resumeRetryAfterSignOut .ok lookupRowA 1 4 sSignedIn).user ≠ none := by decide

/-- C1 amended: after a successful signOut(), an in-flight retry loop
that resolves without ever finding a record leaves CurrentUser absent,
but a loop whose next lookup finds a record commits it: CurrentUser
becomes that record's projection, overwriting the sign-out. -/
theorem signOut_stale_resolution (lookup : Nat → LookupResult) (n i : Nat)
    (s : AuthState) (row : ProfileRow) :
    ((∀ j, noRecord (lookup j) = true) →
      (resumeRetryAfterSignOut .ok lookup n i s).user = none) ∧
    (lookup i = .found row →
      (resumeRetryAfterSignOut .ok lookup (n + 1) i s).user = some (projectUser row)) := by
  constructor
  · intro h
    have hall := fetchRetryAux_none lookup n i (signOut .ok s) (fun j _ => h (i + j))
    simp only [resumeRetryAfterSignOut, hall]
    simp [signOut]
  · intro h
    simp [resumeRetryAfterSignOut, fetchRetryAux, h]

/-- Witness for the C1 amended theorem at concrete inputs. -/
theorem signOut_stale_resolution_witness :
    (resumeRetryAfterSignOut .ok lookupNever 5 0 sSignedIn).user = none ∧
    (resumeRetryAfterSignOut .ok lookupRowA 5 4 sSignedIn).user = some (projectUser rowA) :=
  ⟨(signOut_stale_resolution lookupNever 5 0 sSignedIn rowA).1 (fun _ => rfl),
   (signOut_stale_resolution lookupRowA 4 4 sSignedIn rowA).2 rfl⟩

/-- C2 counterexample: when the identity client's sign-out call fails,
signOut() does not clear the local user — the throw on the error comes
before the setUser(null), and the catch only logs. -/
theorem signOut_remote_failure_cex :
    (signOut .err sSignedIn).user ≠ none := by decide

/-- C2 amended: signOut() clears the local CurrentUser exactly when the
remote sign-out call succeeds; on a failed call the error is only
logged and the state — in particular CurrentUser — is left unchanged. -/
theorem signOut_local_clear (s : AuthState) :
    signOut .ok s = { s with user := none } ∧ signOut .err s = s :=
  ⟨rfl, rfl⟩

/-- C3 counterexample: with "Alice" staged and a SIGNED_IN notification
for identity "u2", the row handed to the profile insert is not the
claimed record with a null clan — the source inserts clan 'onotka'. -/
theorem insert_record_cex :
    (handleAuthChange .signedIn (some "u2") .ok lookupRowA sPendingAlice).2 ≠
      some { id := "u2", name := "Alice", clan := none, total_days_completed := 0 } := by
  decide

/-- C3 amended: the inserted row is {id: the notified identity, name:
the staged display name, clan: 'onotka', total_days_completed: 0}; when
the subsequent retry fetch sees that row on its first lookup,
CurrentUser becomes its projection, whose name is the staged display
name. -/
theorem insert_record_amended (s : AuthState) (uid nm : String)
    (lookup : Nat → LookupResult) (h : s.pendingProfile = some nm) :
    (handleAuthChange .signedIn (some uid) .ok lookup s).2 =
      some (insertedProfileRow uid nm) ∧
    (lookup 0 = .found (insertedProfileRow uid nm) →
      (handleAuthChange .signedIn (some uid) .ok lookup s).1.user =
        some (projectUser (insertedProfileRow uid nm)) ∧
      (projectUser (insertedProfileRow uid nm)).name = nm) := by
  obtain ⟨u0, l0, p0⟩ := s
  simp only [AuthState.pendingProfile] at h
  subst h
  refine ⟨rfl, fun hl => ⟨?_, rfl⟩⟩
  simp [handleAuthChange, fetchRetryAux, hl]

/-- Witness for the C3 amended theorem at concrete inputs. -/
theorem insert_record_amended_witness :
    (handleAuthChange .signedIn (some "u2") .ok
        (fun _ => .found (insertedProfileRow "u2" "Alice")) sPendingAlice).2 =
      some (insertedProfileRow "u2" "Alice") ∧
    (handleAuthChange .signedIn (some "u2") .ok
        (fun _ => .found (insertedProfileRow "u2" "Alice")) sPendingAlice).1.user =
      some (projectUser (insertedProfileRow "u2" "Alice")) := by
  have h := insert_record_amended sPendingAlice "u2" "Alice"
    (fun _ => .found (insertedProfileRow "u2" "Alice")) rfl
  exact ⟨h.1, (h.2 rfl).1⟩

/-- C4: the retry fetch issues at most 5 lookups; a record first seen on
lookup k (zero-based, within the budget — including exactly the 5th
attempt, k = 4) is returned at once after exactly k + 1 lookups; 5
recordless attempts return failure after exactly 5 lookups; and the
result never depends on any lookup past the 5th, so a 6th is never
issued. -/
theorem fetchWithRetry_budget (lookup : Nat → LookupResult) (s : AuthState)
    (k : Nat) (row : ProfileRow) :
    (fetchUserProfileWithRetry lookup s).attempts ≤ 5 ∧
    (k < 5 → (∀ j, j < k → noRecord (lookup j) = true) → lookup k = .found row →
      fetchUserProfileWithRetry lookup s =
        ⟨{ s with user := some (projectUser row), isLoading := false }, true, k + 1, 500 * k⟩) ∧
    ((∀ j, j < 5 → noRecord (lookup j) = true) →
      fetchUserProfileWithRetry lookup s = ⟨{ s with isLoading := false }, false, 5, 2500⟩) ∧
    (∀ L2, (∀ j, j < 5 → lookup j = L2 j) →
      fetchUserProfileWithRetry lookup s = fetchUserProfileWithRetry L2 s) := by
  refine ⟨fetchRetryAux_attempts_le lookup 5 0 s, ?_, ?_, ?_⟩
  · intro hk hbefore hfound
    have h := fetchRetryAux_found lookup 5 k 0 s row hk
      (fun j hj => by simpa using hbefore j hj) (by simpa using hfound)
    simpa [fetchUserProfileWithRetry] using h
  · intro hall
    have h := fetchRetryAux_none lookup 5 0 s (fun j hj => by simpa using hall j hj)
    simpa [fetchUserProfileWithRetry] using h
  · intro L2 h2
    exact fetchRetryAux_ext lookup L2 5 0 s (fun j hj1 hj2 => h2 j (by omega))

/-- Witness for C4 at concrete stores: a row first visible on the fifth
lookup is returned on exactly the fifth attempt, and a store that never
yields a row fails after exactly 5 attempts. -/
theorem fetchWithRetry_budget_witness :
    (fetchUserProfileWithRetry lookupFifth initialState).attempts ≤ 5 ∧
    fetchUserProfileWithRetry lookupFifth initialState =
      ⟨{ initialState with user := some (projectUser rowA), isLoading := false },
        true, 5, 2000⟩ ∧
    fetchUserProfileWithRetry lookupNever initialState =
      ⟨{ initialState with isLoading := false }, false, 5, 2500⟩ := by
  have h1 := fetchWithRetry_budget lookupFifth initialState 4 rowA
  have h2 := fetchWithRetry_budget lookupNever initialState 0 rowA
  refine ⟨h1.1, ?_, h2.2.2.1 (fun j _ => rfl)⟩
  have h3 := h1.2.1 (by omega) (fun j hj => by interval_cases j <;> rfl) (by rfl)
  simpa using h3

/-- C5 counterexample: boot with an existing session does not invoke
the bounded-retry fetcher — against a store whose row only becomes
visible on the second lookup, the boot path leaves CurrentUser absent
while fetchWithRetry over the same store materializes it. -/
theorem boot_single_lookup_cex :
    (bootSession (some "u1") lookupSecond initialState).user = none ∧
    (fetchUserProfileWithRetry lookupSecond initialState).state.user =
      some (projectUser rowA) := by decide

/-- C5 amended: on boot with no session the state settles unauthenticated
(user absent stays absent, isSettling false); with a session the
reconciler runs a single point lookup (fetchUserProfile, not the retry
fetcher): a row on that one lookup materializes CurrentUser, and
anything else leaves the state unchanged apart from isSettling false. -/
theorem boot_behavior (lookup : Nat → LookupResult) (s : AuthState)
    (uid : String) (row : ProfileRow) :
    bootSession none lookup s = { s with isLoading := false } ∧
    (lookup 0 = .found row →
      bootSession (some uid) lookup s =
        { s with user := some (projectUser row), isLoading := false }) ∧
    (noRecord (lookup 0) = true →
      bootSession (some uid) lookup s = { s with isLoading := false }) := by
  refine ⟨rfl, fun h => ?_, fun h => ?_⟩
  · simp [bootSession, fetchUserProfile, h]
  · cases hc : lookup 0
    · rw [hc] at h; simp [noRecord] at h
    · simp [bootSession, fetchUserProfile, hc]
    · simp [bootSession, fetchUserProfile, hc]

/-- Witness for the C5 amended theorem at concrete inputs. -/
theorem boot_behavior_witness :
    bootSession none lookupNever initialState = { initialState with isLoading := false } ∧
    bootSession (some "u1") lookupRowA initialState =
      { initialState with user := some (projectUser rowA), isLoading := false } ∧
    bootSession (some "u1") lookupNever initialState =
      { initialState with isLoading := false } := by
  have h1 := boot_behavior lookupRowA initialState "u1" rowA
  have h2 := boot_behavior lookupNever initialState "u1" rowA
  exact ⟨h2.1, h1.2.1 rfl, h2.2.2 rfl⟩

/-- C6: with a registration staged, a successful insert clears the stage
— the listener state is the retry fetch run from the cleared state, so
its stage is empty — while a failed insert leaves the stage exactly as
it was, only resets isSettling (the error is logged), and sets no
CurrentUser. -/
theorem pending_clear_iff_insert (s : AuthState) (uid nm : String)
    (lookup : Nat → LookupResult) (h : s.pendingProfile = some nm) :
    (handleAuthChange .signedIn (some uid) .ok lookup s).1 =
      (fetchRetryAux lookup 5 0 { s with pendingProfile := none }).state ∧
    (handleAuthChange .signedIn (some uid) .ok lookup s).1.pendingProfile = none ∧
    handleAuthChange .signedIn (some uid) .err lookup s =
      ({ s with isLoading := false }, some (insertedProfileRow uid nm)) ∧
    (handleAuthChange .signedIn (some uid) .err lookup s).1.user = s.user := by
  obtain ⟨u0, l0, p0⟩ := s
  simp only [AuthState.pendingProfile] at h
  subst h
  refine ⟨rfl, ?_, rfl, rfl⟩
  exact fetchRetryAux_pending lookup 5 0 _

/-- Witness for C6 at concrete inputs. -/
theorem pending_clear_iff_insert_witness :
    (handleAuthChange .signedIn (some "u2") .ok lookupRowA sPendingAlice).1.pendingProfile =
      none ∧
    handleAuthChange .signedIn (some "u2") .err lookupRowA sPendingAlice =
      ({ sPendingAlice with isLoading := false }, some (insertedProfileRow "u2" "Alice")) := by
  have h := pending_clear_iff_insert sPendingAlice "u2" "Alice" lookupRowA rfl
  exact ⟨h.2.1, h.2.2.1⟩

/-- C7: updateProfileField (setCurrentOnboardingData) on a settled user
commits to the in-memory user only once the store update has succeeded,
merging the accepted clan with no re-fetch; a failed update leaves the
state — in particular CurrentUser — entirely unchanged. -/
theorem update_after_confirmed_write (s : AuthState) (u : User) (c : String)
    (h : s.user = some u) :
    setCurrentOnboardingData (some c) .ok s =
      { s with user := some { u with clan := some c } } ∧
    setCurrentOnboardingData (some c) .err s = s := by
  obtain ⟨u0, l0, p0⟩ := s
  simp only [AuthState.user] at h
  subst h
  exact ⟨rfl, rfl⟩

/-- Witness for C7 at concrete inputs. -/
theorem update_after_confirmed_write_witness :
    setCurrentOnboardingData (some "c1") .ok sSignedIn =
      { sSignedIn with user := some { projectUser rowA with clan := some "c1" } } ∧
    setCurrentOnboardingData (some "c1") .err sSignedIn = sSignedIn :=
  update_after_confirmed_write sSignedIn (projectUser rowA) "c1" rfl

/-- C8: an errored lookup drives the retry loop exactly as a lookup that
found nothing — collapsing every error outcome into "no row" changes no
run of the loop — and an errored attempt consumes one attempt of the
budget and one fixed 500ms delay before the loop goes on. -/
theorem retry_error_as_notfound (lookup : Nat → LookupResult) (s : AuthState) (n i : Nat) :
    fetchUserProfileWithRetry (fun j => scrub (lookup j)) s =
      fetchUserProfileWithRetry lookup s ∧
    (lookup i = .err →
      fetchRetryAux lookup (n + 1) i s =
        ⟨(fetchRetryAux lookup n (i + 1) s).state,
         (fetchRetryAux lookup n (i + 1) s).succeeded,
         (fetchRetryAux lookup n (i + 1) s).attempts + 1,
         (fetchRetryAux lookup n (i + 1) s).waitedMs + 500⟩) := by
  refine ⟨fetchRetryAux_scrub lookup 5 0 s, fun h => ?_⟩
  simp only [fetchRetryAux, h]

/-- Witness for C8 at a concrete always-erroring store. -/
theorem retry_error_as_notfound_witness :
    fetchUserProfileWithRetry (fun j => scrub (lookupErrs j)) initialState =
      fetchUserProfileWithRetry lookupErrs initialState ∧
    fetchRetryAux lookupErrs 5 0 initialState =
      ⟨(fetchRetryAux lookupErrs 4 1 initialState).state,
       (fetchRetryAux lookupErrs 4 1 initialState).succeeded,
       (fetchRetryAux lookupErrs 4 1 initialState).attempts + 1,
       (fetchRetryAux lookupErrs 4 1 initialState).waitedMs + 500⟩ := by
  have h := retry_error_as_notfound lookupErrs initialState 4 0
  exact ⟨h.1, h.2 rfl⟩

/-- C9: signIn raises isSettling before delegating to the identity
client; a rejected credential resolves with isSettling back false, the
failure surfaced as a rejection, and CurrentUser untouched; a
successful signIn also never touches CurrentUser (reconciliation is
left to the notification listener). -/
theorem signIn_settling (s : AuthState) :
    (signInBegin s).isLoading = true ∧
    (signIn .err s).1.isLoading = false ∧
    (signIn .err s).2 = true ∧
    (signIn .err s).1.user = s.user ∧
    (signIn .ok s).1.user = s.user ∧
    (signIn .ok s).2 = false :=
  ⟨rfl, rfl, rfl, rfl, rfl, rfl⟩

/-- C10: signUp raises isSettling before the identity call and has no
path that resets it: after any outcome — in particular the
account-already-exists conflict, which signUp surfaces as a rejection —
isSettling is still true and CurrentUser is exactly what it was, so an
absent user stays absent. -/
theorem signUp_failure_keeps_settling (s : AuthState) (nm : String) (r : SignUpOutcome) :
    (signUp nm r s).1.isLoading = true ∧
    (signUp nm r s).1.user = s.user ∧
    (signUp nm .alreadyRegistered s).2 = true ∧
    (signUp nm .otherError s).2 = true := by
  cases r <;> exact ⟨rfl, rfl, rfl, rfl⟩

end AuthCore
